import Mathlib

/-!
Shallow embedding of the pile version/tag resolution core
(packages gitver and core of the repository), together with
proofs checking the specification's claims against it.

Modelling conventions:
* Go strings are Lean Strings; Go errors are Option String / Except String.
* A Go function returning (T, error) becomes a Lean function returning
  T × Option String, keeping the source's behaviour on each path.
* Filesystem and subprocess effects of Project.Load are supplied by an
  explicit environment record (LoadEnv); the function body mirrors the
  Go control flow over that environment.
-/

namespace Pile

/-! ## gitver: the GitVersion record -/

/-- GitVersion version information about one or more git projects
(struct GitVersion of package gitver). -/
structure GitVersion where
  Branch : String := ""
  Commits : String := ""
  Hash : String := ""
  Dirty : Bool := false
  User : String := ""
  deriving Repr, DecidableEq

/-! ## Template engine

Embedding of the subset of Go text/template that the version templates
use: literal text, field substitution of the five GitVersion
fields, and the conditional block form. Exactly as in text/template,
an action referring to an unknown field parses successfully and fails
at execution time, while malformed action syntax is a parse error. -/

/-- Parsed template node: literal text, a field substitution, or a
conditional block over a field. -/
inductive TNode where
  | text (s : String)
  | field (name : String)
  | cond (name : String) (body : List TNode)
  deriving Repr

/-- A single template action, the contents between action delimiters. -/
inductive TAction where
  | field (name : String)
  | condStart (name : String)
  | blockEnd
  deriving Repr, DecidableEq

/-- Lexer token: a literal character or an action body. -/
inductive Tok where
  | lit (c : Char)
  | act (s : List Char)
  deriving Repr, DecidableEq

/-- Reads the body of an action up to the closing delimiter; none when
the action is never closed. -/
def readAction : List Char → Option (List Char × List Char)
  | [] => none
  | '}' :: '}' :: rest => some ([], rest)
  | c :: rest =>
    match readAction rest with
    | none => none
    | some (a, r) => some (c :: a, r)

/-- Splits template input into literal characters and action bodies;
an unclosed action delimiter is a parse error. Fuel bounds the
recursion; one unit per emitted token always suffices. -/
def tokenize : Nat → List Char → Except String (List Tok)
  | 0, _ => .error "template: out of fuel"
  | _ + 1, [] => .ok []
  | fuel + 1, '{' :: '{' :: rest =>
    match readAction rest with
    | none => .error "template: unclosed action"
    | some (a, r) =>
      match tokenize fuel r with
      | .error e => .error e
      | .ok ts => .ok (Tok.act a :: ts)
  | fuel + 1, c :: rest =>
    match tokenize fuel rest with
    | .error e => .error e
    | .ok ts => .ok (Tok.lit c :: ts)

/-- True for the characters Go template identifiers are made of. -/
def isIdentChar (c : Char) : Bool :=
  c.isAlpha || c.isDigit || c = '_'

/-- Parses an action body into one of the three recognized action
forms; anything else is a parse error (the embedded dialect). -/
def parseAction (s : List Char) : Except String TAction :=
  let t := (s.dropWhile (· = ' ')).reverse.dropWhile (· = ' ') |>.reverse
  match t with
  | 'e' :: 'n' :: 'd' :: [] => .ok .blockEnd
  | 'i' :: 'f' :: ' ' :: rest =>
    let r := rest.dropWhile (· = ' ')
    match r with
    | '.' :: name =>
      if name ≠ [] ∧ name.all isIdentChar then .ok (.condStart (String.mk name))
      else .error "template: bad if action"
    | _ => .error "template: bad if action"
  | '.' :: name =>
    if name ≠ [] ∧ name.all isIdentChar then .ok (.field (String.mk name))
    else .error "template: bad field action"
  | _ => .error "template: unrecognized action"

/-- Parses a token stream into a node sequence. Stops either at the end
of input or at a block-end action; the boolean reports whether a
block-end was consumed. Fuel bounds the recursion; callers pass enough
fuel for the whole stream. -/
def parseSeq : Nat → List Tok → Except String (List TNode × List Tok × Bool)
  | 0, _ => .error "template: out of fuel"
  | _ + 1, [] => .ok ([], [], false)
  | fuel + 1, Tok.lit c :: rest =>
    match parseSeq fuel rest with
    | .error e => .error e
    | .ok (ns, r, b) => .ok (TNode.text (String.mk [c]) :: ns, r, b)
  | fuel + 1, Tok.act a :: rest =>
    match parseAction a with
    | .error e => .error e
    | .ok .blockEnd => .ok ([], rest, true)
    | .ok (.field n) =>
      match parseSeq fuel rest with
      | .error e => .error e
      | .ok (ns, r, b) => .ok (TNode.field n :: ns, r, b)
    | .ok (.condStart n) =>
      match parseSeq fuel rest with
      | .error e => .error e
      | .ok (_, _, false) => .error "template: unexpected EOF in if"
      | .ok (body, r, true) =>
        match parseSeq fuel r with
        | .error e => .error e
        | .ok (ns, r2, b) => .ok (TNode.cond n body :: ns, r2, b)

/-- Parses a whole template string into its node list; a stray
block-end at top level is a parse error. -/
def parseTmpl (s : String) : Except String (List TNode) :=
  match tokenize (s.length + 1) s.toList with
  | .error e => .error e
  | .ok toks =>
    match parseSeq (toks.length + 1) toks with
    | .error e => .error e
    | .ok (_, _, true) => .error "template: unexpected end action"
    | .ok (ns, _, false) => .ok ns

/-- Substitution value of a GitVersion field; unknown fields are an
execution error, as in text/template. -/
def fieldString (ver : GitVersion) : String → Except String String
  | "Branch" => .ok ver.Branch
  | "Commits" => .ok ver.Commits
  | "Hash" => .ok ver.Hash
  | "Dirty" => .ok (if ver.Dirty then "true" else "false")
  | "User" => .ok ver.User
  | n => .error ("template: cant evaluate field " ++ n)

/-- Truth value of a GitVersion field in a conditional: booleans are
themselves, strings are true when non-empty (text/template truth). -/
def fieldTruth (ver : GitVersion) : String → Except String Bool
  | "Branch" => .ok (ver.Branch ≠ "")
  | "Commits" => .ok (ver.Commits ≠ "")
  | "Hash" => .ok (ver.Hash ≠ "")
  | "Dirty" => .ok ver.Dirty
  | "User" => .ok (ver.User ≠ "")
  | n => .error ("template: cant evaluate field " ++ n)

mutual

/-- Executes one node against a GitVersion record. -/
def execNode (ver : GitVersion) : TNode → Except String String
  | .text s => .ok s
  | .field n => fieldString ver n
  | .cond n body =>
    match fieldTruth ver n with
    | .error e => .error e
    | .ok true => execList ver body
    | .ok false => .ok ""

/-- Executes a node list, concatenating the rendered pieces. -/
def execList (ver : GitVersion) : List TNode → Except String String
  | [] => .ok ""
  | n :: rest =>
    match execNode ver n with
    | .error e => .error e
    | .ok s =>
      match execList ver rest with
      | .error e => .error e
      | .ok t => .ok (s ++ t)

end

/-- DefaultTemplate Default template for formatting GitVersion using
String() (constant DefaultTemplate of package gitver). -/
def DefaultTemplate : String :=
  "\x7b\x7bif .Dirty\x7d\x7ddirty-\x7b\x7b.User\x7d\x7d-\x7b\x7bend\x7d\x7d\x7b\x7b.Commits\x7d\x7d.\x7b\x7b.Hash\x7d\x7d"

/-- FormatTemplate formats a GitVersion using a text/template string
(method FormatTemplate of package gitver). The source checks the
result of template execution against nil but then returns the earlier
err variable, which is nil once parsing succeeded; this embedding
reproduces that: an execution failure yields an empty string and no
error. -/
def GitVersion.FormatTemplate (ver : GitVersion) (arg : String) :
    String × Option String :=
  match parseTmpl arg with
  | .error e => ("", some e)
  | .ok nodes =>
    match execList ver nodes with
    | .error _ => ("", none)
    | .ok s => (s, none)

/-! ## gitver: the identity cache

The cachedStringResponse type wrapping sync.Once is declared outside
the available sources; only its use in currentUser is. Modelled from
the spec: a compute-once/broadcast-result memoization primitive whose
Do body runs exactly once, with the sanitized response or the error
stored permanently. Concurrency is modelled as a sequence of calls
against explicit cache state. -/

/-- Modelled from the spec: the cachedStringResponse type wrapping
sync.Once is missing from the available sources. Cache cell holding
the one-shot result of the username lookup; done replaces the
sync.Once state. -/
structure CachedStringResponse where
  done : Bool := false
  response : String := ""
  err : Option String := none
  deriving Repr, DecidableEq

/-- Strips every character outside the alphanumeric class, the effect
of the regexp replacement in currentUser. -/
def sanitizeUser (s : String) : String :=
  String.mk (s.toList.filter fun c => c.isAlpha || c.isDigit)

/-- Body of the Do closure in currentUser: stores the lookup error, or
the sanitized username with the error cleared. The regexp compilation
of the constant pattern always succeeds and is elided. -/
def currentUserBody (lookup : Except String String) : CachedStringResponse :=
  match lookup with
  | .error e => { done := true, response := "", err := some e }
  | .ok u => { done := true, response := sanitizeUser u, err := none }

/-- One call to currentUser: runs the Do body only when the cache has
never completed, then returns the cached response and error. The
environment maps the index of each underlying lookup to its outcome;
the counter records how many underlying lookups have run. -/
def currentUser (env : Nat → Except String String)
    (s : CachedStringResponse × Nat) :
    (String × Option String) × (CachedStringResponse × Nat) :=
  if s.1.done then ((s.1.response, s.1.err), s)
  else
    let c := currentUserBody (env s.2)
    ((c.response, c.err), (c, s.2 + 1))

/-- Runs n successive currentUser calls from a given state, collecting
each call's return value. -/
def runCurrentUser (env : Nat → Except String String) :
    Nat → CachedStringResponse × Nat →
    List (String × Option String) × (CachedStringResponse × Nat)
  | 0, s => ([], s)
  | n + 1, s =>
    let (r, s1) := currentUser env s
    let (rs, s2) := runCurrentUser env n s1
    (r :: rs, s2)

/-! ## core: project configuration and Load -/

/-- Modelled from the spec: registry.Config is declared outside the
available sources. The registry collaborator exposes registryPrefix(),
a literal prefix put before the image name; that prefix is the one
datum of the settings block this core reads. -/
structure RegistryConfig where
  RegPrefix : String := ""
  deriving Repr, DecidableEq

/-- Modelled from the spec: registryPrefix() returns the literal
string prefix put before the image name. -/
def RegistryConfig.RegistryPrefix (c : RegistryConfig) : String :=
  c.RegPrefix

/-- ProjectConfig configuration for a project (struct ProjectConfig of
package core). The nested Test struct is flattened into its three
string leaves; BuildArgs is an association list standing for the Go
map. -/
structure ProjectConfig where
  Name : String := ""
  ContextDir : String := ""
  ImagePrefix : String := ""
  VersionPrefix : String := ""
  VersionTemplate : String := ""
  DependsOn : List String := []
  BuildArgs : List (String × String) := []
  TestTarget : String := ""
  TestCopySrcPath : String := ""
  TestCopyDstPath : String := ""
  Registry : RegistryConfig := {}
  deriving Repr, DecidableEq

/-- Zero-value merge rule of the mergo library used at the merge step:
a destination string field keeps its value unless it is the zero
value, in which case the default is inherited. -/
def mergeStr (dst src : String) : String :=
  if dst = "" then src else dst

/-- Zero-value merge rule for list-typed fields: an empty destination
inherits the default (container-typed fields are not examined by any
claim; the zero-value rule is applied uniformly). -/
def mergeList {α : Type} (dst src : List α) : List α :=
  if dst.isEmpty then src else dst

/-- Field-by-field merge of a project configuration with defaults,
the effect of mergo.Merge(&project.Config, defaults): every zero-value
field of the destination inherits the default, every other field
keeps its project-level value. -/
def mergeConfig (dst src : ProjectConfig) : ProjectConfig where
  Name := mergeStr dst.Name src.Name
  ContextDir := mergeStr dst.ContextDir src.ContextDir
  ImagePrefix := mergeStr dst.ImagePrefix src.ImagePrefix
  VersionPrefix := mergeStr dst.VersionPrefix src.VersionPrefix
  VersionTemplate := mergeStr dst.VersionTemplate src.VersionTemplate
  DependsOn := mergeList dst.DependsOn src.DependsOn
  BuildArgs := mergeList dst.BuildArgs src.BuildArgs
  TestTarget := mergeStr dst.TestTarget src.TestTarget
  TestCopySrcPath := mergeStr dst.TestCopySrcPath src.TestCopySrcPath
  TestCopyDstPath := mergeStr dst.TestCopyDstPath src.TestCopyDstPath
  Registry := { RegPrefix := mergeStr dst.Registry.RegPrefix src.Registry.RegPrefix }

/-- Go filepath.Base: empty input gives a dot, trailing separators are
stripped, the last path element is returned, an all-separator path
gives the separator. -/
def filepathBase (p : String) : String :=
  if p = "" then "."
  else
    let cs := (p.toList.reverse.dropWhile (· = '/')).reverse
    let last := (cs.reverse.takeWhile (· ≠ '/')).reverse
    if cs.isEmpty then "/"
    else if last.isEmpty then "/" else String.mk last

/-- Go filepath.Join restricted to two non-degenerate elements: joins
with the separator, passing a lone element through (the Clean
normalization step is omitted; paths are opaque to the VCS oracle in
this embedding). -/
def filepathJoin (a b : String) : String :=
  if a = "" then b else if b = "" then a else a ++ "/" ++ b

/-- Project data about an active project (struct Project of package
core). GitVersion is an optional value standing for the Go pointer. -/
structure Project where
  Dir : String := ""
  Config : ProjectConfig := {}
  CanBuild : Bool := false
  GitVersion : Option GitVersion := none
  Repository : String := ""
  Tag : String := ""
  Image : String := ""
  ImageWithRegistry : String := ""
  deriving Repr, DecidableEq

/-- ContextDir returns the context directory absolute path (method
ContextDir of Project). -/
def Project.ContextDir (project : Project) : String :=
  if project.Config.ContextDir ≠ "" then
    filepathJoin project.Dir project.Config.ContextDir
  else project.Dir

/-- Computes all directories factored into a version check: the
project directory, the context directory when distinct, and every
dependency path joined onto the project directory (method
versionedPaths of Project). -/
def Project.versionedPaths (project : Project) : List String :=
  let paths := [project.Dir]
  let paths :=
    if project.Dir ≠ project.ContextDir then paths ++ [project.ContextDir]
    else paths
  paths ++ project.Config.DependsOn.map (filepathJoin project.Dir)

/-- Outcome of locating, reading and parsing the pile.yml descriptor:
the file is absent, unreadable, unparsable, or parses to a
configuration. -/
inductive ConfigRead where
  | missing
  | unreadable
  | parseError
  | parsed (cfg : ProjectConfig)

/-- Effect environment of one Project.Load call: the descriptor
outcome, the error value mergo.Merge returns, whether the Dockerfile
exists, and the gitver.New oracle on the versioned path set. The
gitverNew field is modelled from the spec: gitver.New is declared
outside the available sources, and the Version Resolver contract makes
it return a version record or a fatal VCS error for a path set. -/
structure LoadEnv where
  configRead : ConfigRead
  mergeErr : Option String := none
  dockerfileExists : Bool := false
  gitverNew : List String → Except String GitVersion := fun _ => .error "git"

/-- Result of Project.Load: the mutated project, the returned error,
and whether any VCS work (gitver.New) was invoked. -/
structure LoadResult where
  project : Project
  err : Option String
  vcsCalled : Bool
  deriving Repr

/-- Name-defaulting step of Load: when the descriptor set no name, the
base name of the project directory is used. -/
def nameDefaulted (cfg : ProjectConfig) (dir : String) : ProjectConfig :=
  if cfg.Name = "" then { cfg with Name := filepathBase dir } else cfg

/-- Configuration held by the project after the merge step. The source
discards the error mergo.Merge returns; when the merge fails the
destination is left as it was, and Load proceeds unchanged either
way. -/
def loadedConfig (cfg : ProjectConfig) (dir : String)
    (defaults : ProjectConfig) (env : LoadEnv) : ProjectConfig :=
  match env.mergeErr with
  | some _ => nameDefaulted cfg dir
  | none => mergeConfig (nameDefaulted cfg dir) defaults

/-- Load loads a project given a set of defaults from the root (method
Load of Project). Mirrors the Go control flow: missing, unreadable or
unparsable descriptors log and return nil at once; then the name is
defaulted, defaults are merged (the merge error discarded), a missing
Dockerfile short-circuits with CanBuild false; otherwise gitver.New
resolves the version, the tag is rendered from the configured
template, the version prefix prepended when non-empty, and the
repository, image and registry-qualified image assembled. -/
def Project.Load (project : Project) (defaults : ProjectConfig)
    (env : LoadEnv) : LoadResult :=
  match env.configRead with
  | .missing => ⟨project, none, false⟩
  | .unreadable => ⟨project, none, false⟩
  | .parseError => ⟨project, none, false⟩
  | .parsed cfg =>
    let p1 : Project :=
      { project with Config := loadedConfig cfg project.Dir defaults env }
    if env.dockerfileExists = false then
      ⟨{ p1 with CanBuild := false }, none, false⟩
    else
      let p2 : Project := { p1 with CanBuild := true }
      match env.gitverNew p2.versionedPaths with
      | .error e => ⟨p2, some e, true⟩
      | .ok gv =>
        let p3 : Project := { p2 with GitVersion := some gv }
        match gv.FormatTemplate p3.Config.VersionTemplate with
        | (tagStr, some e) => ⟨{ p3 with Tag := tagStr }, some e, true⟩
        | (tagStr, none) =>
          let tag :=
            if p3.Config.VersionPrefix ≠ "" then
              p3.Config.VersionPrefix ++ tagStr
            else tagStr
          let p4 : Project := { p3 with Tag := tag }
          let repo := p4.Config.ImagePrefix ++ p4.Config.Name
          let image := repo ++ ":" ++ p4.Tag
          ⟨{ p4 with
              Repository := repo
              Image := image
              ImageWithRegistry := p4.Config.Registry.RegistryPrefix ++ image },
            none, true⟩

/-! ## Concrete fixtures used by counterexamples and witnesses -/

/-- Concrete GitVersion record for a dirty working tree. -/
def gvFix : GitVersion :=
  { Branch := "main", Commits := "5", Hash := "abcdef1", Dirty := true,
    User := "bob" }

/-- Concrete root defaults used by the Load fixtures. -/
def defaultsFix : ProjectConfig :=
  { Name := "defname", ImagePrefix := "d-" }

/-- Descriptor configuration that sets only a name. -/
def cfgNameOnly : ProjectConfig :=
  { Name := "svc" }

/-- Environment with no descriptor file but a Dockerfile present and a
healthy VCS oracle. -/
def envMissing : LoadEnv :=
  { configRead := .missing, mergeErr := none, dockerfileExists := true,
    gitverNew := fun _ => .ok gvFix }

/-- Environment with a parsed descriptor, a Dockerfile and a healthy
VCS oracle. -/
def envBuildable : LoadEnv :=
  { configRead := .parsed cfgNameOnly, mergeErr := none,
    dockerfileExists := true, gitverNew := fun _ => .ok gvFix }

/-- Environment with a parsed descriptor and no Dockerfile. -/
def envNoDocker : LoadEnv :=
  { configRead := .parsed cfgNameOnly, mergeErr := none,
    dockerfileExists := false, gitverNew := fun _ => .ok gvFix }

/-- Environment in which the merge with defaults fails. -/
def envMergeFail : LoadEnv :=
  { configRead := .parsed cfgNameOnly, mergeErr := some "merge failure",
    dockerfileExists := false, gitverNew := fun _ => .ok gvFix }

/-- Environment in which the merge with defaults fails on a buildable
project. -/
def envMergeFailBuild : LoadEnv :=
  { configRead := .parsed cfgNameOnly, mergeErr := some "merge failure",
    dockerfileExists := true, gitverNew := fun _ => .ok gvFix }

/-- Environment in which version resolution fails. -/
def envGitFail : LoadEnv :=
  { configRead := .parsed cfgNameOnly, mergeErr := none,
    dockerfileExists := true,
    gitverNew := fun _ => .error "not a git repository" }

/-! ## Theorems -/

theorem string_mk_ne_empty (l : List Char) (h : l ≠ []) :
    String.mk l ≠ "" := by
  intro hmk
  apply h
  have h2 : String.mk l = String.mk [] := hmk
  injection h2

theorem filepathBase_ne_empty (p : String) : filepathBase p ≠ "" := by
  unfold filepathBase
  split
  · decide
  · dsimp only
    split
    · decide
    · split
      · decide
      · rename_i hlast
        exact string_mk_ne_empty _ (fun hnil => hlast (by rw [hnil]; rfl))

theorem formatTemplate_err_empty (ver : GitVersion) (s t : String)
    (e : String) (h : ver.FormatTemplate s = (t, some e)) : t = "" := by
  unfold GitVersion.FormatTemplate at h
  split at h
  · exact (Prod.mk.injEq .. ▸ h).1.symm
  · split at h
    · simp at h
    · simp at h

theorem load_parsed_config (p : Project) (defaults : ProjectConfig)
    (env : LoadEnv) (cfg : ProjectConfig)
    (h : env.configRead = .parsed cfg) :
    (Project.Load p defaults env).project.Config =
      loadedConfig cfg p.Dir defaults env := by
  unfold Project.Load
  rw [h]
  dsimp only
  split
  · rfl
  · split
    · rfl
    · split
      · rfl
      · rfl

/-- Runs of currentUser from a completed cache return the cached pair
and never touch the lookup oracle. -/
theorem runCurrentUser_done (env : Nat → Except String String) (n : Nat)
    (resp : String) (err : Option String) (k : Nat) :
    runCurrentUser env n (⟨true, resp, err⟩, k) =
      (List.replicate n (resp, err), (⟨true, resp, err⟩, k)) := by
  induction n with
  | zero => rfl
  | succ n ih =>
    simp [runCurrentUser, currentUser, ih, List.replicate_succ]

/-- C5: every call to currentUser, before or after the first
completion, observes exactly one underlying username lookup (min n 1
lookups over any n sequential calls from a fresh cache) and the same
final cached value or error, the outcome of the single lookup; in
particular a failed first lookup makes every call return that same
cached error without re-attempting the lookup. -/
theorem currentUser_memoized (env : Nat → Except String String) (n : Nat) :
    (runCurrentUser env n ({}, 0)).1 =
      List.replicate n
        ((currentUserBody (env 0)).response, (currentUserBody (env 0)).err) ∧
    (runCurrentUser env n ({}, 0)).2.2 = min n 1 := by
  cases n with
  | zero => exact ⟨rfl, rfl⟩
  | succ n =>
    obtain ⟨resp, err, hbody⟩ :
        ∃ resp err, currentUserBody (env 0) = ⟨true, resp, err⟩ := by
      unfold currentUserBody
      split
      · exact ⟨_, _, rfl⟩
      · exact ⟨_, _, rfl⟩
    have h1 : runCurrentUser env (n + 1) ({}, 0) =
        ((resp, err) :: List.replicate n (resp, err),
          (⟨true, resp, err⟩, 1)) := by
      simp [runCurrentUser, currentUser, hbody, runCurrentUser_done]
    rw [h1, hbody]
    refine ⟨by simp [List.replicate_succ], ?_⟩
    simp only []
    omega

/-- C6: the built-in default template renders the dirty record with
user bob, commit depth 5 and hash abcdef1 to dirty-bob-5.abcdef1, and
renders the clean record with commit depth 5 and hash abcdef1 (any
user, any branch) to 5.abcdef1, with no error either way. -/
theorem defaultTemplate_renders :
    (∀ b : String,
      GitVersion.FormatTemplate
        { Branch := b, Dirty := true, User := "bob", Commits := "5",
          Hash := "abcdef1" } DefaultTemplate =
        ("dirty-bob-5.abcdef1", none)) ∧
    (∀ b u : String,
      GitVersion.FormatTemplate
        { Branch := b, Dirty := false, User := u, Commits := "5",
          Hash := "abcdef1" } DefaultTemplate =
        ("5.abcdef1", none)) :=
  ⟨fun _ => rfl, fun _ _ => rfl⟩

/-- C2: evaluation of FormatTemplate at a failing input. The template
made of a single action naming the unknown field Nope parses
successfully, its execution against a record fails, and FormatTemplate
nevertheless returns an empty string with a nil error: the render
failure is silently suppressed, because after the execution check the
stale nil parse error is returned. -/
theorem formatTemplate_render_error_suppressed :
    parseTmpl "\x7b\x7b.Nope\x7d\x7d" = .ok [TNode.field "Nope"] ∧
    execList gvFix [TNode.field "Nope"] =
      .error "template: cant evaluate field Nope" ∧
    gvFix.FormatTemplate "\x7b\x7b.Nope\x7d\x7d" = ("", none) :=
  ⟨rfl, rfl, rfl⟩

/-- C1 counterexample: a project directory without pile.yml, with a
Dockerfile present and defaults carrying an image prefix. Load returns
no error but performs none of the subsequent steps: the name is not
defaulted to the directory base name, the image prefix is not
inherited from defaults, and the buildability check never runs, so
CanBuild stays false despite the Dockerfile. -/
theorem load_missing_config_counterexample :
    (Project.Load { Dir := "proj" } defaultsFix envMissing).err = none ∧
    (Project.Load { Dir := "proj" } defaultsFix envMissing).vcsCalled
      = false ∧
    (Project.Load { Dir := "proj" } defaultsFix envMissing).project.CanBuild
      = false ∧
    (Project.Load { Dir := "proj" } defaultsFix envMissing).project.Config.Name
      = "" ∧
    (Project.Load { Dir := "proj" } defaultsFix envMissing).project.Config.Name
      ≠ filepathBase "proj" ∧
    (Project.Load { Dir := "proj" } defaultsFix
      envMissing).project.Config.ImagePrefix ≠ defaultsFix.ImagePrefix := by
  decide

/-- C1 amended: whenever the config descriptor is missing, unreadable
or fails to parse, Load returns no error but stops resolution at that
point: the project is returned exactly as it was, with no name
defaulting, no merge with defaults, no buildability check and no VCS
work. -/
theorem load_lenient_config_stops (p : Project) (defaults : ProjectConfig)
    (env : LoadEnv)
    (h : env.configRead = .missing ∨ env.configRead = .unreadable ∨
      env.configRead = .parseError) :
    Project.Load p defaults env = ⟨p, none, false⟩ := by
  unfold Project.Load
  rcases h with h | h | h <;> rw [h]

/-- Witness for the amended C1 at a concrete missing-descriptor
environment. -/
theorem load_lenient_config_stops_witness :
    Project.Load { Dir := "proj" } defaultsFix envMissing =
      ⟨{ Dir := "proj" }, none, false⟩ :=
  load_lenient_config_stops { Dir := "proj" } defaultsFix envMissing
    (Or.inl rfl)

/-- C3 counterexample: a buildable project whose merged configuration
leaves the version-template override empty. The claim predicts the tag
rendered from the built-in default template, dirty-bob-5.abcdef1 for
the fixture record; Load instead renders the empty override, leaving
an empty tag. -/
theorem load_default_template_unused_counterexample :
    (Project.Load { Dir := "proj" } defaultsFix envBuildable).err = none ∧
    (Project.Load { Dir := "proj" } defaultsFix
      envBuildable).project.CanBuild = true ∧
    (loadedConfig cfgNameOnly "proj" defaultsFix
      envBuildable).VersionTemplate = "" ∧
    (gvFix.FormatTemplate DefaultTemplate).1 = "dirty-bob-5.abcdef1" ∧
    (Project.Load { Dir := "proj" } defaultsFix envBuildable).project.Tag
      = "" ∧
    (Project.Load { Dir := "proj" } defaultsFix envBuildable).project.Tag
      ≠ (gvFix.FormatTemplate DefaultTemplate).1 := by
  decide

/-- C3 amended: for every buildable project, the tag is rendered from
the merged configuration's version-template string exactly as it is,
whether or not it is empty (an empty override renders to an empty tag;
the built-in default template is never substituted), and the
configured version prefix is prepended to the rendered tag. -/
theorem load_tag_from_config_template (p : Project)
    (defaults : ProjectConfig) (env : LoadEnv) (cfg : ProjectConfig)
    (gv : GitVersion) (t : String)
    (h1 : env.configRead = .parsed cfg)
    (h2 : env.dockerfileExists = true)
    (h3 : ∀ ps, env.gitverNew ps = .ok gv)
    (h4 : gv.FormatTemplate
      (loadedConfig cfg p.Dir defaults env).VersionTemplate = (t, none)) :
    (Project.Load p defaults env).err = none ∧
    (Project.Load p defaults env).project.Tag =
      (loadedConfig cfg p.Dir defaults env).VersionPrefix ++ t := by
  unfold Project.Load
  rw [h1]
  simp only [h2, h3, h4, Bool.true_eq_false, if_false]
  refine ⟨trivial, ?_⟩
  split
  · rfl
  · rename_i hvp
    rw [not_not] at hvp
    rw [hvp]
    rfl

/-- Witness for the amended C3 at a concrete buildable environment
whose merged version template is empty. -/
theorem load_tag_from_config_template_witness :
    (Project.Load { Dir := "proj" } defaultsFix envBuildable).err = none ∧
    (Project.Load { Dir := "proj" } defaultsFix envBuildable).project.Tag =
      (loadedConfig cfgNameOnly "proj" defaultsFix
        envBuildable).VersionPrefix ++ "" :=
  load_tag_from_config_template { Dir := "proj" } defaultsFix envBuildable
    cfgNameOnly gvFix "" rfl rfl (fun _ => rfl) rfl

/-- C4: evaluation of Load at inputs where the merge with defaults
fails. The environment reports a merge failure, yet Load returns no
error on both the non-buildable and the fully buildable path: the
value mergo.Merge returns is discarded, never surfaced. -/
theorem load_merge_error_discarded :
    envMergeFail.mergeErr = some "merge failure" ∧
    (Project.Load { Dir := "proj" } defaultsFix envMergeFail).err = none ∧
    envMergeFailBuild.mergeErr = some "merge failure" ∧
    (Project.Load { Dir := "proj" } defaultsFix envMergeFailBuild).err
      = none := by
  decide

theorem nameDefaulted_name (cfg : ProjectConfig) (dir : String) :
    (nameDefaulted cfg dir).Name =
      (if cfg.Name = "" then filepathBase dir else cfg.Name) := by
  unfold nameDefaulted
  split <;> rfl

theorem nameDefaulted_name_ne (cfg : ProjectConfig) (dir : String) :
    (nameDefaulted cfg dir).Name ≠ "" := by
  rw [nameDefaulted_name]
  split
  · exact filepathBase_ne_empty dir
  · assumption

theorem loadedConfig_name (cfg : ProjectConfig) (dir : String)
    (defaults : ProjectConfig) (env : LoadEnv) :
    (loadedConfig cfg dir defaults env).Name =
      (nameDefaulted cfg dir).Name := by
  unfold loadedConfig
  cases env.mergeErr with
  | none =>
    show (mergeConfig (nameDefaulted cfg dir) defaults).Name = _
    unfold mergeConfig mergeStr
    dsimp only
    rw [if_neg (nameDefaulted_name_ne cfg dir)]
  | some e => rfl

/-- C7: a project directory with a parsed config descriptor but no
Dockerfile is marked not-buildable: Load returns no error, makes zero
VCS calls, leaves GitVersion nil and the tag, repository, image and
registry-qualified image unpopulated; the project still carries its
resolved configuration. -/
theorem load_nonbuildable_short_circuit (d : String)
    (cfg defaults : ProjectConfig) (env : LoadEnv)
    (h1 : env.configRead = .parsed cfg)
    (h2 : env.dockerfileExists = false) :
    (Project.Load { Dir := d } defaults env).err = none ∧
    (Project.Load { Dir := d } defaults env).vcsCalled = false ∧
    (Project.Load { Dir := d } defaults env).project.CanBuild = false ∧
    (Project.Load { Dir := d } defaults env).project.GitVersion = none ∧
    (Project.Load { Dir := d } defaults env).project.Tag = "" ∧
    (Project.Load { Dir := d } defaults env).project.Repository = "" ∧
    (Project.Load { Dir := d } defaults env).project.Image = "" ∧
    (Project.Load { Dir := d } defaults env).project.ImageWithRegistry
      = "" ∧
    (Project.Load { Dir := d } defaults env).project.Config =
      loadedConfig cfg d defaults env := by
  unfold Project.Load
  rw [h1]
  simp [h2]

/-- Witness for C7 at a concrete descriptor-without-Dockerfile
environment. -/
theorem load_nonbuildable_short_circuit_witness :
    (Project.Load { Dir := "proj" } defaultsFix envNoDocker).err = none ∧
    (Project.Load { Dir := "proj" } defaultsFix envNoDocker).vcsCalled
      = false ∧
    (Project.Load { Dir := "proj" } defaultsFix
      envNoDocker).project.CanBuild = false ∧
    (Project.Load { Dir := "proj" } defaultsFix
      envNoDocker).project.GitVersion = none ∧
    (Project.Load { Dir := "proj" } defaultsFix envNoDocker).project.Tag
      = "" ∧
    (Project.Load { Dir := "proj" } defaultsFix
      envNoDocker).project.Repository = "" ∧
    (Project.Load { Dir := "proj" } defaultsFix envNoDocker).project.Image
      = "" ∧
    (Project.Load { Dir := "proj" } defaultsFix
      envNoDocker).project.ImageWithRegistry = "" ∧
    (Project.Load { Dir := "proj" } defaultsFix envNoDocker).project.Config
      = loadedConfig cfgNameOnly "proj" defaultsFix envNoDocker :=
  load_nonbuildable_short_circuit "proj" cfgNameOnly defaultsFix envNoDocker
    rfl rfl

/-- C8: in the merge step every zero-value configuration field
inherits from defaults and every explicitly set field wins; in
particular a descriptor setting only a non-empty name, with the image
prefix unset, ends after Load with its own name kept and the image
prefix inherited from defaults. -/
theorem load_merge_inheritance (p : Project) (defaults : ProjectConfig)
    (env : LoadEnv) (cfg : ProjectConfig)
    (h1 : env.configRead = .parsed cfg) (h2 : env.mergeErr = none)
    (h3 : cfg.Name ≠ "") (h4 : cfg.ImagePrefix = "") :
    (Project.Load p defaults env).project.Config.Name = cfg.Name ∧
    (Project.Load p defaults env).project.Config.ImagePrefix =
      defaults.ImagePrefix ∧
    (∀ d s : ProjectConfig,
      (mergeConfig d s).Name = (if d.Name = "" then s.Name else d.Name) ∧
      (mergeConfig d s).ImagePrefix =
        (if d.ImagePrefix = "" then s.ImagePrefix else d.ImagePrefix) ∧
      (mergeConfig d s).VersionPrefix =
        (if d.VersionPrefix = "" then s.VersionPrefix
          else d.VersionPrefix) ∧
      (mergeConfig d s).VersionTemplate =
        (if d.VersionTemplate = "" then s.VersionTemplate
          else d.VersionTemplate) ∧
      (mergeConfig d s).ContextDir =
        (if d.ContextDir = "" then s.ContextDir else d.ContextDir)) := by
  have hc := load_parsed_config p defaults env cfg h1
  rw [hc]
  unfold loadedConfig
  rw [h2]
  refine ⟨?_, ?_, fun d s => ⟨rfl, rfl, rfl, rfl, rfl⟩⟩
  · unfold mergeConfig mergeStr nameDefaulted
    simp [h3]
  · unfold mergeConfig mergeStr nameDefaulted
    simp [h3, h4]

/-- Witness for C8 at a concrete name-only descriptor merged against
defaults carrying an image prefix. -/
theorem load_merge_inheritance_witness :
    (Project.Load { Dir := "proj" } defaultsFix
      envNoDocker).project.Config.Name = cfgNameOnly.Name ∧
    (Project.Load { Dir := "proj" } defaultsFix
      envNoDocker).project.Config.ImagePrefix = defaultsFix.ImagePrefix :=
  ⟨(load_merge_inheritance { Dir := "proj" } defaultsFix envNoDocker
      cfgNameOnly rfl rfl (by decide) rfl).1,
    (load_merge_inheritance { Dir := "proj" } defaultsFix envNoDocker
      cfgNameOnly rfl rfl (by decide) rfl).2.1⟩

/-- C9: after Load on a directory whose descriptor exists and parses,
the configured name is the descriptor's name when set and the base
name of the project directory otherwise — regardless of the defaults,
so it is never inherited from defaults.Name — and it is always
non-empty by the time the merge runs. -/
theorem load_name_from_descriptor_or_dir (p : Project)
    (defaults : ProjectConfig) (env : LoadEnv) (cfg : ProjectConfig)
    (h1 : env.configRead = .parsed cfg) :
    (Project.Load p defaults env).project.Config.Name =
      (if cfg.Name = "" then filepathBase p.Dir else cfg.Name) ∧
    (Project.Load p defaults env).project.Config.Name ≠ "" := by
  have hc := load_parsed_config p defaults env cfg h1
  rw [hc, loadedConfig_name, nameDefaulted_name]
  exact ⟨rfl, (nameDefaulted_name ..) ▸ nameDefaulted_name_ne cfg p.Dir⟩

/-- Witness for C9 at a concrete parsed descriptor. -/
theorem load_name_from_descriptor_or_dir_witness :
    (Project.Load { Dir := "proj" } defaultsFix
      envNoDocker).project.Config.Name =
      (if cfgNameOnly.Name = "" then filepathBase "proj"
        else cfgNameOnly.Name) ∧
    (Project.Load { Dir := "proj" } defaultsFix
      envNoDocker).project.Config.Name ≠ "" :=
  load_name_from_descriptor_or_dir { Dir := "proj" } defaultsFix
    envNoDocker cfgNameOnly rfl

/-- C10: whenever Load on a fresh project returns a non-nil error
(version resolution or tag rendering failure), the tag, repository,
image and registry-qualified image are left at their zero values: no
partial image identity is assembled on an error path. -/
theorem load_error_no_partial_image (d : String)
    (defaults : ProjectConfig) (env : LoadEnv)
    (h : (Project.Load { Dir := d } defaults env).err ≠ none) :
    (Project.Load { Dir := d } defaults env).project.Tag = "" ∧
    (Project.Load { Dir := d } defaults env).project.Repository = "" ∧
    (Project.Load { Dir := d } defaults env).project.Image = "" ∧
    (Project.Load { Dir := d } defaults env).project.ImageWithRegistry
      = "" := by
  revert h
  unfold Project.Load
  split
  · intro h; exact absurd rfl h
  · intro h; exact absurd rfl h
  · intro h; exact absurd rfl h
  · dsimp only
    split
    · intro h; exact absurd rfl h
    · split
      · intro _; exact ⟨rfl, rfl, rfl, rfl⟩
      · split
        · rename_i tagStr e heq
          intro _
          refine ⟨?_, rfl, rfl, rfl⟩
          exact formatTemplate_err_empty _ _ _ _ heq
        · intro h; exact absurd rfl h

/-- Witness for C10 at a concrete environment whose version resolution
fails. -/
theorem load_error_no_partial_image_witness :
    (Project.Load { Dir := "proj" } defaultsFix envGitFail).project.Tag
      = "" ∧
    (Project.Load { Dir := "proj" } defaultsFix
      envGitFail).project.Repository = "" ∧
    (Project.Load { Dir := "proj" } defaultsFix envGitFail).project.Image
      = "" ∧
    (Project.Load { Dir := "proj" } defaultsFix
      envGitFail).project.ImageWithRegistry = "" :=
  load_error_no_partial_image "proj" defaultsFix envGitFail (by decide)

end Pile
